import Mathlib

/-!
Verification development for the asynchronous JSON-RPC 2.0 dispatch engine
of the lampo daemon (crate lampo-async-jsonrpc, plus the external-handler
bridge in lampod/src/jsonrpc.rs).

Shallow embedding conventions:

* JSON values (serde_json::Value) are modelled by the inductive `Json`;
  numbers are modelled as integers, which suffices because the engine treats
  every payload opaquely.
* The interior-mutable `Handler` (Cell/RefCell state behind an Arc) is
  modelled by explicit state passing: each operation returns its result
  together with the updated `Handler`.
* Asynchronous callbacks `Fn(&T, Value) -> Future<Result<Value, Error>>`
  are modelled as pure functions `T → Json → Except RpcError Json`; the
  engine always awaits a callback to completion before using its result, so
  the suspension structure is irrelevant to the properties proved here.
* A Rust `unwrap` that can fail is modelled by `Option`: a `none` result of
  an embedded function marks the place where the source would terminate the
  task by an unrecoverable runtime failure.
-/

/-- JSON value tree, modelling serde_json::Value. Numbers are integers:
the dispatch engine never inspects numeric payloads. -/
inductive Json : Type where
  | null : Json
  | bool (b : Bool) : Json
  | num (n : Int) : Json
  | str (s : String) : Json
  | arr (elems : List Json) : Json
  | obj (fields : List (String × Json)) : Json

/-- Request identifier: the wire format allows a number, a string or null
(spec section 3, data model of Request). -/
inductive RpcId : Type where
  | num (n : Int) : RpcId
  | str (s : String) : RpcId
  | null : RpcId
deriving DecidableEq, Repr

/-- ErrorObject of the protocol: code, message and optional data
(errors::RpcError in the source). -/
structure RpcError : Type where
  code : Int
  message : String
  data : Option Json

/-- Wire request envelope (json_rpc2::Request<Value>): protocol version
string, method name, opaque params, correlation id. -/
structure Request : Type where
  jsonrpc : String
  method : String
  params : Json
  id : RpcId

/-- Wire response envelope (json_rpc2::Response<Value>): protocol version,
optional result, optional error object, echoed id. -/
structure Response : Type where
  jsonrpc : String
  result : Option Json
  error : Option RpcError
  id : RpcId

/-- Association-list lookup keyed by strings, modelling HashMap::get. -/
def mapLookup {A : Type} : List (String × A) → String → Option A
  | [], _ => none
  | (k, v) :: rest, key => if k = key then some v else mapLookup rest key

/-- Association-list insert, modelling HashMap::insert: replaces the value
when the key is present, otherwise appends the new binding. -/
def mapInsert {A : Type} : List (String × A) → String → A → List (String × A)
  | [], key, v => [(key, v)]
  | (k, v0) :: rest, key, v =>
      if k = key then (key, v) :: rest else (k, v0) :: mapInsert rest key v

/-- Registered callback: receives the shared context and the raw params and
returns a result-or-error (AsyncFn<T> in the source, with the future
already awaited). -/
def Callback (T : Type) : Type := T → Json → Except RpcError Json

/-- Handler state (struct Handler<T>): shutdown flag (Cell<bool>), method
table (RefCell<HashMap<String, AsyncFn<T>>>) and shared context (Arc<T>).
The interior mutability is modelled by explicit state passing. -/
structure Handler (T : Type) : Type where
  stop : Bool
  rpc_method : List (String × Callback T)
  ctx : T

/-- Handler::new. -/
def Handler.new {T : Type} (ctx : T) : Handler T :=
  { stop := false, rpc_method := [], ctx := ctx }

/-- Handler::add_method: inserts the callback into the method table. -/
def Handler.add_method {T : Type} (h : Handler T) (method : String)
    (callback : Callback T) : Handler T :=
  { h with rpc_method := mapInsert h.rpc_method method callback }

/-- Handler::has_rpc: true when the method table holds the name. -/
def Handler.has_rpc {T : Type} (h : Handler T) (method : String) : Bool :=
  (mapLookup h.rpc_method method).isSome

/-- Handler::run_callback. The source begins with
`let binding = self.rpc_method.take();`, which replaces the RefCell
contents by an empty map; the lookup and the call then use the taken
binding. The returned Handler carries the emptied table, exactly as the
shared Handler does after the call in the source. -/
def Handler.run_callback {T : Type} (h : Handler T) (req : Request) :
    Option (Except RpcError Json) × Handler T :=
  let binding := h.rpc_method
  let taken : Handler T := { h with rpc_method := [] }
  match mapLookup binding req.method with
  | none =>
      (some (Except.error
        { code := -1
          message := "method `" ++ req.method ++ "` not found"
          data := none }), taken)
  | some callback => (some (callback h.ctx req.params), taken)

/-- Handler::stop: sets the shutdown flag. -/
def Handler.setStop {T : Type} (h : Handler T) : Handler T :=
  { h with stop := true }

/-- JSONRPCv2::add_rpc: refuses to register when the name is present,
otherwise delegates to add_method. Returns the (possibly unchanged)
handler state next to the Result<(), ()>. -/
def add_rpc {T : Type} (h : Handler T) (name : String)
    (callback : Callback T) : Except Unit Unit × Handler T :=
  if h.has_rpc name then (Except.error (), h)
  else (Except.ok (), h.add_method name callback)

/-- Serialization of a request to a JSON value, used by handle_request for
the error.data echo (serde_json::to_value(payload)). The derived serde
layout follows the wire format of spec section 6. -/
def Request.toJson (r : Request) : Json :=
  Json.obj
    [("jsonrpc", Json.str r.jsonrpc),
     ("method", Json.str r.method),
     ("params", r.params),
     ("id", match r.id with
            | RpcId.num n => Json.num n
            | RpcId.str s => Json.str s
            | RpcId.null => Json.null)]

/-- JSONRPCv2::write: wraps a callback result into a Response, echoing the
request id; a success value fills result, a failure fills error. The
io::Result wrapper is always Ok in the source, hence omitted. -/
def write (request : Request) (resp : Except RpcError Json) : Response :=
  match resp with
  | Except.ok v =>
      { jsonrpc := "2.0", result := some v, error := none, id := request.id }
  | Except.error e =>
      { jsonrpc := "2.0", result := none, error := some e, id := request.id }

/-- JSONRPCv2::handle_request. A version mismatch yields the -32600
response (with the message string copied verbatim from the source,
misspelling included) without touching the method table; otherwise the
callback is dispatched and its result wrapped by `write`. The source
unwraps the Option returned by run_callback; a `none` outcome of this
model marks that unwrap failing. -/
def handle_request {T : Type} (h : Handler T) (payload : Request) :
    Option (Response × Handler T) :=
  if payload.jsonrpc ≠ "2.0" then
    some
      ({ jsonrpc := "2.0"
         result := none
         error := some
           { code := -32600
             message := "Invalid reuqest: The JSON sent is not a valid Request object."
             data := some payload.toJson }
         id := payload.id }, h)
  else
    match h.run_callback payload with
    | (none, _) => none
    | (some resp, h2) => some (write payload resp, h2)

/-- Per-connection body of the task spawned by JSONRPCv2::listen: read the
buffer, parse it, handle the request, write the response. Read and parse
outcomes are parameters because the socket and serde are external: `readOk`
is whether socket.read_buf returned Ok, `parsed` the outcome of
serde_json::from_slice. The first component of a successful run is the
response written back, none when the connection is dropped without a
write. A `none` overall result marks a runtime failure inside the task. -/
def conn_body {T : Type} (h : Handler T) (readOk : Bool)
    (parsed : Option Request) : Option (Option Response × Handler T) :=
  if readOk then
    match parsed with
    | none => some (none, h)
    | some req =>
        match handle_request h req with
        | none => none
        | some (resp, h2) => some (some resp, h2)
  else some (none, h)

/-- Outcome of one listener.accept().await: a connection (with its read and
parse outcomes) or an accept failure. -/
inductive AcceptEvent : Type where
  | conn (readOk : Bool) (parsed : Option Request) : AcceptEvent
  | acceptErr : AcceptEvent

/-- Scheduling events of the accept loop, used to state in which order the
loop accepts connections and runs their handlers. -/
inductive Ev : Type where
  | accepted (i : Nat) : Ev
  | handlerStarted (i : Nat) : Ev
  | handlerFinished (i : Nat) : Ev
deriving DecidableEq, Repr

/-- JSONRPCv2::listen, driven by the list of accept outcomes. The source
loop is `while !stop { let socket = listener.accept().await.unwrap();
tokio::spawn(task).await; }`: an accept failure hits the unwrap (modelled
by `none`), and the `.await` right after tokio::spawn forces the spawned
handler to finish before the next accept, so the handler state threads
sequentially and each iteration contributes the event triple
accepted / handlerStarted / handlerFinished before the next accept. The
result collects the responses written per connection and the scheduling
trace. -/
def JSONRPCv2.listen {T : Type} (h : Handler T) (i : Nat) :
    List AcceptEvent → Option (List (Option Response) × List Ev × Handler T)
  | [] => some ([], [], h)
  | e :: rest =>
      if h.stop then some ([], [], h)
      else
        match e with
        | AcceptEvent.acceptErr => none
        | AcceptEvent.conn readOk parsed =>
            match conn_body h readOk parsed with
            | none => none
            | some (written, h2) =>
                match JSONRPCv2.listen h2 (i + 1) rest with
                | none => none
                | some (ws, evs, hf) =>
                    some (written :: ws,
                      Ev.accepted i :: Ev.handlerStarted i ::
                        Ev.handlerFinished i :: evs, hf)

/-- External handler bridge state (lampod CommandHandler): an optional
shared jsonrpc Handler (RefCell<Option<Arc<Handler<LampoDaemon>>>>); the
configuration field plays no role in handle and is omitted. -/
structure CommandHandler (T : Type) : Type where
  handler : Option (Handler T)

/-- CommandHandler::handle (the ExternalHandler bridge implementation):
with no inner handler it skips (Ok(None)); otherwise it calls
run_callback and, because of the final `Ok(Some(resp?))`, propagates a
callback failure as Err while a success becomes Ok(Some(value)). The
branch returning Ok(None) when run_callback yields None is kept from the
source even though run_callback always returns Some. -/
def CommandHandler.handle {T : Type} (ch : CommandHandler T) (req : Request) :
    Except RpcError (Option Json) × CommandHandler T :=
  match ch.handler with
  | none => (Except.ok none, ch)
  | some h =>
      match h.run_callback req with
      | (none, h2) => (Except.ok none, { ch with handler := some h2 })
      | (some (Except.ok v), h2) =>
          (Except.ok (some v), { ch with handler := some h2 })
      | (some (Except.error e), h2) =>
          (Except.error e, { ch with handler := some h2 })

/-- Modelled from the spec: the Response serializer of the Protocol Codec
(module json_rpc2, absent from the sources; only its use sites are
available). Follows the wire format of spec section 6: jsonrpc first, then
result and error only when present, then the id; an error object carries
code, message and, only when present, data. Serialization is modelled down
to the JSON document tree, the byte rendering of that tree being external
trivia of the codec. -/
def Response.toJson (r : Response) : Json :=
  Json.obj
    ([("jsonrpc", Json.str r.jsonrpc)]
      ++ (match r.result with
          | some v => [("result", v)]
          | none => [])
      ++ (match r.error with
          | some e =>
              [("error", Json.obj
                ([("code", Json.num e.code), ("message", Json.str e.message)]
                  ++ (match e.data with
                      | some d => [("data", d)]
                      | none => [])))]
          | none => [])
      ++ [("id", match r.id with
                 | RpcId.num n => Json.num n
                 | RpcId.str s => Json.str s
                 | RpcId.null => Json.null)])

/-- Modelled from the spec: deserialization of an id field. -/
def RpcId.fromJson : Json → Option RpcId
  | Json.num n => some (RpcId.num n)
  | Json.str s => some (RpcId.str s)
  | Json.null => some RpcId.null
  | _ => none

/-- Modelled from the spec: deserialization of an error object. -/
def RpcError.fromJson : Json → Option RpcError
  | Json.obj fields =>
      match mapLookup fields "code", mapLookup fields "message" with
      | some (Json.num c), some (Json.str m) =>
          some { code := c, message := m, data := mapLookup fields "data" }
      | _, _ => none
  | _ => none

/-- Modelled from the spec: the Response deserializer of the Protocol
Codec, inverse direction of Response.toJson. -/
def Response.fromJson : Json → Option Response
  | Json.obj fields =>
      match mapLookup fields "jsonrpc", mapLookup fields "id" with
      | some (Json.str ver), some idJson =>
          match RpcId.fromJson idJson with
          | none => none
          | some rid =>
              match mapLookup fields "error" with
              | some errJson =>
                  match RpcError.fromJson errJson with
                  | none => none
                  | some e =>
                      some { jsonrpc := ver, result := mapLookup fields "result"
                             error := some e, id := rid }
              | none =>
                  some { jsonrpc := ver, result := mapLookup fields "result"
                         error := none, id := rid }
      | _, _ => none
  | _ => none

/-! Helper lemmas shared by the claim theorems. -/

/-- Handler.run_callback always returns a Some result: both the
method-not-found branch and the callback branch wrap their outcome. -/
theorem run_callback_fst_isSome {T : Type} (h : Handler T) (req : Request) :
    ((h.run_callback req).1).isSome := by
  rcases hm : mapLookup h.rpc_method req.method with _ | cb <;>
    simp [Handler.run_callback, hm]

/-- Handler.run_callback leaves the handler with an emptied method table
and everything else unchanged, on both branches. -/
theorem run_callback_snd_eq {T : Type} (h : Handler T) (req : Request) :
    (h.run_callback req).2 = { h with rpc_method := [] } := by
  rcases hm : mapLookup h.rpc_method req.method with _ | cb <;>
    simp [Handler.run_callback, hm]

/-- handle_request never hits its internal unwrap: the Option result is
always Some. -/
theorem handle_request_isSome {T : Type} (h : Handler T) (p : Request) :
    (handle_request h p).isSome := by
  unfold handle_request
  split
  · simp
  · have hs := run_callback_fst_isSome h p
    rcases hrc : h.run_callback p with ⟨o, h2⟩
    rw [hrc] at hs
    cases o
    · simp at hs
    · simp [hrc]

/-- conn_body never hits a runtime failure: the task either writes a
response or drops the connection. -/
theorem conn_body_isSome {T : Type} (h : Handler T) (readOk : Bool)
    (parsed : Option Request) : (conn_body h readOk parsed).isSome := by
  unfold conn_body
  cases readOk
  · simp
  · cases parsed with
    | none => simp
    | some req =>
        have hs := handle_request_isSome h req
        rcases hrq : handle_request h req with _ | ⟨resp, h2⟩
        · rw [hrq] at hs; simp at hs
        · simp [hrq]

/-- conn_body never changes the shutdown flag. -/
theorem conn_body_stop {T : Type} (h : Handler T) (readOk : Bool)
    (parsed : Option Request) (out : Option Response) (h2 : Handler T)
    (heq : conn_body h readOk parsed = some (out, h2)) : h2.stop = h.stop := by
  unfold conn_body at heq
  cases readOk
  · simp at heq
    rw [← heq.2]
  · cases parsed with
    | none =>
        simp at heq
        rw [← heq.2]
    | some req =>
        simp at heq
        rcases hrq : handle_request h req with _ | ⟨resp, h3⟩
        · rw [hrq] at heq; simp at heq
        · rw [hrq] at heq
          simp at heq
          rw [← heq.2]
          unfold handle_request at hrq
          split at hrq
          · simp at hrq
            rw [← hrq.2]
          · have h4 := run_callback_snd_eq h req
            rcases hrc : h.run_callback req with ⟨o, h5⟩
            rw [hrc] at hrq h4
            cases o
            · simp at hrq
            · simp at hrq h4
              rw [← hrq.2, h4]

/-- When handle_request sees a version-2.0 request whose method resolves
to a callback, it wraps that callback result with `write` and hands back
the emptied handler. -/
theorem handle_request_found {T : Type} (h : Handler T) (p : Request)
    (cb : Callback T) (hv : p.jsonrpc = "2.0")
    (hm : mapLookup h.rpc_method p.method = some cb) :
    handle_request h p =
      some (write p (cb h.ctx p.params), { h with rpc_method := [] }) := by
  unfold handle_request
  rw [if_neg (by simp [hv])]
  simp [Handler.run_callback, hm]

/-! Concrete fixtures used by witnesses and closed evaluations. -/

/-- Echo callback used in witnesses: returns its params unchanged
(the scenario of spec section 8). -/
def echoCb : Callback Unit := fun _ v => Except.ok v

/-- Failing callback used in witnesses: application error, code 42
(the scenario of spec section 8). -/
def failCb : Callback Unit :=
  fun _ _ => Except.error { code := 42, message := "insufficient funds", data := none }

/-- Handler with the single method `echo` registered. -/
def echoHandler : Handler Unit :=
  { stop := false, rpc_method := [("echo", echoCb)], ctx := () }

/-- Valid request for the registered method `echo`. -/
def echoReq : Request :=
  { jsonrpc := "2.0", method := "echo", params := Json.num 1, id := RpcId.num 7 }

/-- Valid request for a method absent from every fixture registry. -/
def missingReq : Request :=
  { jsonrpc := "2.0", method := "missing", params := Json.null, id := RpcId.num 2 }

/-- Request carrying the wrong protocol version. -/
def badVersionReq : Request :=
  { jsonrpc := "1.0", method := "x", params := Json.null, id := RpcId.num 1 }

/-! Claim theorems. -/

/-- C1: for every request whose jsonrpc field equals "2.0" and whose
method name is present in the registry, handle_request produces a Response
whose id equals the id of the request, and exactly one of result and error
is set: result carries the value and error is absent when the callback
succeeds, error carries the failure and result is absent when the callback
fails. -/
theorem c1_resolved_dispatch_id_and_exclusivity {T : Type} (h : Handler T)
    (p : Request) (cb : Callback T) (hv : p.jsonrpc = "2.0")
    (hm : mapLookup h.rpc_method p.method = some cb) :
    ∃ r h2, handle_request h p = some (r, h2) ∧ r.id = p.id ∧
      ((∃ v, cb h.ctx p.params = Except.ok v ∧
          r.result = some v ∧ r.error = none) ∨
       (∃ e, cb h.ctx p.params = Except.error e ∧
          r.error = some e ∧ r.result = none)) := by
  have hfound := handle_request_found h p cb hv hm
  rcases hc : cb h.ctx p.params with e | v
  · rw [hc] at hfound
    exact ⟨_, _, hfound, rfl, Or.inr ⟨e, rfl, rfl, rfl⟩⟩
  · rw [hc] at hfound
    exact ⟨_, _, hfound, rfl, Or.inl ⟨v, rfl, rfl, rfl⟩⟩

/-- Witness for C1 at the echo fixture. -/
theorem c1_witness :
    echoReq.jsonrpc = "2.0" ∧
    mapLookup echoHandler.rpc_method echoReq.method = some echoCb ∧
    (∃ r h2, handle_request echoHandler echoReq = some (r, h2) ∧
      r.id = echoReq.id ∧
      ((∃ v, echoCb echoHandler.ctx echoReq.params = Except.ok v ∧
          r.result = some v ∧ r.error = none) ∨
       (∃ e, echoCb echoHandler.ctx echoReq.params = Except.error e ∧
          r.error = some e ∧ r.result = none))) :=
  ⟨rfl, rfl,
    c1_resolved_dispatch_id_and_exclusivity echoHandler echoReq echoCb rfl rfl⟩

/-- C2: every call to Handler.run_callback empties the method table and
never restores it: afterwards has_rpc is false for every name, and every
subsequent run_callback call, for any name, yields the code -1
method-not-found error. -/
theorem c2_run_callback_empties_registry {T : Type} (h : Handler T)
    (req : Request) :
    (∀ m, ((h.run_callback req).2).has_rpc m = false) ∧
    (∀ req2 : Request, ((h.run_callback req).2.run_callback req2).1 =
      some (Except.error
        { code := -1, message := "method `" ++ req2.method ++ "` not found",
          data := none })) := by
  have hsnd := run_callback_snd_eq h req
  constructor
  · intro m
    rw [hsnd]
    simp [Handler.has_rpc, mapLookup]
  · intro req2
    rw [hsnd]
    simp [Handler.run_callback, mapLookup]

/-- C3: registering a second callback under a name already present fails,
returns the handler unchanged (so the original entry is not overwritten),
and the originally registered callback is still the one dispatched for
that name. -/
theorem c3_duplicate_registration_rejected {T : Type} (h : Handler T)
    (name : String) (cb0 cb1 : Callback T)
    (hm : mapLookup h.rpc_method name = some cb0) :
    add_rpc h name cb1 = (Except.error (), h) ∧
    (∀ req : Request, req.method = name →
      (h.run_callback req).1 = some (cb0 h.ctx req.params)) := by
  constructor
  · simp [add_rpc, Handler.has_rpc, hm]
  · intro req hreq
    simp [Handler.run_callback, hreq, hm]

/-- Witness for C3 at the echo fixture with a conflicting second
callback. -/
theorem c3_witness :
    mapLookup echoHandler.rpc_method "echo" = some echoCb ∧
    add_rpc echoHandler "echo" failCb = (Except.error (), echoHandler) ∧
    (echoHandler.run_callback echoReq).1 =
      some (echoCb echoHandler.ctx echoReq.params) := by
  have h := c3_duplicate_registration_rejected echoHandler "echo" echoCb failCb rfl
  exact ⟨rfl, h.1, h.2 echoReq rfl⟩

/-- Response produced by handle_request for the version-mismatch fixture,
spelled out literally for the C4 evaluation. -/
def invalidVersionResp : Response :=
  { jsonrpc := "2.0"
    result := none
    error := some
      { code := -32600
        message := "Invalid reuqest: The JSON sent is not a valid Request object."
        data := some badVersionReq.toJson }
    id := RpcId.num 1 }

/-- C4: evaluation of handle_request at a request with protocol version
"1.0" against a populated registry. The response carries error code
-32600, the request echoed in error.data, no result, the id of the
request, and the handler (hence the registry) is returned untouched —
but the message produced by the code is the misspelled string
"Invalid reuqest: ...", not the string the claim states, as the final
conjunct records. -/
theorem c4_invalid_version_evaluated :
    (handle_request echoHandler badVersionReq =
      some (invalidVersionResp, echoHandler)) ∧
    invalidVersionResp.error = some
      { code := -32600
        message := "Invalid reuqest: The JSON sent is not a valid Request object."
        data := some badVersionReq.toJson } ∧
    invalidVersionResp.result = none ∧
    invalidVersionResp.id = badVersionReq.id ∧
    "Invalid reuqest: The JSON sent is not a valid Request object." ≠
      "Invalid Request: The JSON sent is not a valid Request object." := by
  exact ⟨rfl, rfl, rfl, rfl, by decide⟩

/-- C5: dispatching a request whose method is absent from the method table
yields the ErrorObject with code -1 and the message naming the missing
method, without invoking any callback. -/
theorem c5_method_not_found {T : Type} (h : Handler T) (req : Request)
    (hm : mapLookup h.rpc_method req.method = none) :
    (h.run_callback req).1 = some (Except.error
      { code := -1, message := "method `" ++ req.method ++ "` not found",
        data := none }) := by
  simp [Handler.run_callback, hm]

/-- Witness for C5 at the fixture registry, method "missing". -/
theorem c5_witness :
    mapLookup echoHandler.rpc_method missingReq.method = none ∧
    (echoHandler.run_callback missingReq).1 = some (Except.error
      { code := -1, message := "method `missing` not found", data := none }) :=
  ⟨rfl, c5_method_not_found echoHandler missingReq rfl⟩

/-- C6: when the buffer read from the connection fails to parse into a
Request, the connection task writes nothing back and leaves the handler —
method table included — untouched, for every handler state: the payload
never reaches dispatch (a dispatch would have emptied the table). -/
theorem c6_parse_failure_drops_connection {T : Type} (h : Handler T) :
    conn_body h true none = some (none, h) := by
  rfl

/-- Counterexample to C7: a single failed accept makes JSONRPCv2.listen hit the
unwrap on the accept result and end in the runtime-failure outcome (none),
instead of logging and continuing to accept. -/
theorem c7_counterexample_accept_failure_terminates :
    JSONRPCv2.listen echoHandler 0 [AcceptEvent.acceptErr] = none := by
  rfl

/-- Totality of the accept loop over traces without accept failures,
generalized over the starting index; the length equation records that one
connection outcome is produced per accepted connection. -/
theorem listen_total_of_no_acceptErr {T : Type} (evs : List AcceptEvent) :
    ∀ (h : Handler T) (i : Nat), AcceptEvent.acceptErr ∉ evs →
      h.stop = false →
      ∃ ws tr hf, JSONRPCv2.listen h i evs = some (ws, tr, hf) ∧
        ws.length = evs.length := by
  induction evs with
  | nil =>
      intro h i _ _
      exact ⟨[], [], h, rfl, rfl⟩
  | cons e rest ih =>
      intro h i hne hstop
      have hne2 : AcceptEvent.acceptErr ∉ rest :=
        fun hx => hne (List.mem_cons_of_mem _ hx)
      cases e with
      | acceptErr => exact absurd (List.mem_cons_self _ _) hne
      | conn ro p =>
          have hcb := conn_body_isSome h ro p
          rcases hcb2 : conn_body h ro p with _ | ⟨w, h2⟩
          · rw [hcb2] at hcb
            simp at hcb
          · have hstop2 : h2.stop = false := by
              rw [conn_body_stop h ro p w h2 hcb2, hstop]
            rcases ih h2 (i + 1) hne2 hstop2 with ⟨ws, tr, hf, hlis, hlen⟩
            refine ⟨w :: ws,
              Ev.accepted i :: Ev.handlerStarted i ::
                Ev.handlerFinished i :: tr, hf, ?_, by simp [hlen]⟩
            unfold JSONRPCv2.listen
            simp [hstop, hcb2, hlis]

/-- C7 amended: on every trace of accepted connections that contains no
accept failure, the engine suffers no runtime failure — read failures,
parse failures, unknown methods and callback failures are all either
answered with a Response or silently dropped — and the loop keeps
accepting: one connection outcome per accepted connection. An accept
failure, by contrast, terminates the loop through the unwrap
(see the counterexample). -/
theorem c7_amended_no_runtime_failure_without_accept_failure {T : Type}
    (h : Handler T) (evs : List AcceptEvent)
    (hne : AcceptEvent.acceptErr ∉ evs) (hstop : h.stop = false) :
    ∃ ws tr hf, JSONRPCv2.listen h 0 evs = some (ws, tr, hf) ∧
      ws.length = evs.length :=
  listen_total_of_no_acceptErr evs h 0 hne hstop

/-- Trace of accept outcomes exercising a read failure, a parse failure,
an unknown method and a successful dispatch. -/
def demoEvents : List AcceptEvent :=
  [AcceptEvent.conn true none, AcceptEvent.conn false none,
   AcceptEvent.conn true (some missingReq), AcceptEvent.conn true (some echoReq)]

/-- Witness for the amended C7 at the demo trace. -/
theorem c7_witness :
    AcceptEvent.acceptErr ∉ demoEvents ∧ echoHandler.stop = false ∧
    (∃ ws tr hf, JSONRPCv2.listen echoHandler 0 demoEvents = some (ws, tr, hf) ∧
      ws.length = demoEvents.length) :=
  ⟨by simp [demoEvents], rfl,
    c7_amended_no_runtime_failure_without_accept_failure echoHandler
      demoEvents (by simp [demoEvents]) rfl⟩

/-- Bridge fixture: a CommandHandler whose inner jsonrpc handler is set
and holds the single method echo. -/
def bridge : CommandHandler Unit := { handler := some echoHandler }

/-- C8 evaluated: for a request whose method the bridge does not
recognize, CommandHandler.handle does not skip with the None variant —
because run_callback always returns Some, the final statement of handle
propagates the method-not-found failure as an error. -/
theorem c8_unrecognized_method_is_error_not_skip :
    (bridge.handle missingReq).1 = Except.error
      { code := -1, message := "method `missing` not found", data := none } := by
  rfl

/-- C9: the Response codec is lossless: deserializing the serialization of
any constructible Response — any combination of present or absent result,
present or absent error with optional data, and numeric, string or null
id — returns that Response unchanged. -/
theorem c9_response_roundtrip (r : Response) :
    Response.fromJson (Response.toJson r) = some r := by
  rcases r with ⟨ver, res, err, id⟩
  rcases err with _ | ⟨c, m, d⟩
  · cases res <;> cases id <;> rfl
  · cases res <;> cases id <;> cases d <;> rfl

/-- Trace of two consecutive connections, both valid echo requests. -/
def twoConns : List AcceptEvent :=
  [AcceptEvent.conn true (some echoReq), AcceptEvent.conn true (some echoReq)]

/-- C10 evaluated: the accept loop is serialized. With two connections
queued, the scheduling trace produced by JSONRPCv2.listen runs the first handler to
completion (handlerFinished 0) strictly before the second connection is
accepted (accepted 1): the await placed right after tokio::spawn makes the
loop wait for each handler instead of resuming the accept immediately. -/
theorem c10_accept_loop_serializes_handlers :
    ∃ ws hf, JSONRPCv2.listen echoHandler 0 twoConns =
      some (ws,
        [Ev.accepted 0, Ev.handlerStarted 0, Ev.handlerFinished 0,
         Ev.accepted 1, Ev.handlerStarted 1, Ev.handlerFinished 1], hf) :=
  ⟨_, _, rfl⟩
